import Mathlib

/-!
Shallow embedding of the core of the `vanna_eldad_custom_ui3` repository
(a natural-language-to-SQL assistant) and verification of its specification.

The embedding covers:
* the Python string primitives used by `PostgresSqlRunner.run_sql`
  (src/tools/sql_tool.py) and `VannaTextToSqlAgent._extract_sql_from_text`
  (src/agent/vanna_agent.py);
* the LIMIT-injection rewrite of `run_sql`;
* the pgvector similarity queries of `PgVectorAgentMemory`
  (src/memory/pgvector_memory.py), both as a nondeterministic relational
  semantics of the SQL text (ORDER BY fixes only the sort key, not the
  order among ties) and as an executable deterministic refinement;
* `PgVectorAgentMemory.get_context_for_question` with an explicit trace of
  embedding-service invocations;
* `PostgresConversationStore.get_conversation` / `delete_conversation` /
  `get_recent_messages` over an explicit table state;
* the orchestrator `VannaTextToSqlAgent.process_question`, as a total
  function over an arbitrary behavior of its collaborators (user resolver,
  memory, LLM, SQL runner), each collaborator call modelled as
  `Except String _` so that a raised exception is an explicit outcome.
  The orchestrator records a trace of SQL executions and memory writes.

Python strings are modelled as `List Char`; Python dicts whose key set
matters (the response dict of `process_question`) are modelled as
association lists.
-/

/-! ## Python string primitives (modelled over `List Char`) -/

/-- Whitespace characters removed by Python's `str.strip()`. -/
def pyIsSpace (c : Char) : Bool :=
  c = ' ' || c = '\t' || c = '\n' || c = '\x0d' || c = '\x0b' || c = '\x0c'

/-- Python `str.upper()` (ASCII behaviour, which is all the source uses). -/
def pyUpper (l : List Char) : List Char := l.map Char.toUpper

/-- Python `str.lower()` (ASCII behaviour). -/
def pyLower (l : List Char) : List Char := l.map Char.toLower

/-- Python `str.strip()`: remove leading and trailing whitespace. -/
def pyStrip (l : List Char) : List Char :=
  ((l.dropWhile pyIsSpace).reverse.dropWhile pyIsSpace).reverse

/-- Python `str.lstrip()`: remove leading whitespace only. -/
def pyLstrip (l : List Char) : List Char := l.dropWhile pyIsSpace

/-- Python `str.rstrip(';')`: remove trailing semicolon characters. -/
def pyRstripSemi (l : List Char) : List Char :=
  (l.reverse.dropWhile (fun c => c = ';')).reverse

/-- Python `s.startswith(t)`: `leadSeq t s` holds when `t` is a leading
segment of `s`. -/
def leadSeq : List Char → List Char → Bool
  | [], _ => true
  | _ :: _, [] => false
  | a :: as, b :: bs => a = b && leadSeq as bs

/-- Python `t in s` (substring containment): `hasSeq t s`. -/
def hasSeq (t : List Char) : List Char → Bool
  | [] => leadSeq t []
  | c :: rest => leadSeq t (c :: rest) || hasSeq t rest

/-- Fuel-indexed worker for Python `str.split(sep)` with a non-empty
separator: scan left to right, breaking at each non-overlapping occurrence
of `sep`. The fuel is consumed one unit per examined character, and
`splitOnSeq` supplies `l.length` units, which suffices because a match
consumes `sep.length ≥ 1` characters for one unit of fuel. -/
def splitFuel (sep : List Char) : Nat → List Char → List Char → List (List Char)
  | 0, l, cur => [cur.reverse ++ l]
  | _ + 1, [], cur => [cur.reverse]
  | n + 1, c :: rest, cur =>
    if leadSeq sep (c :: rest) then
      cur.reverse :: splitFuel sep n (List.drop (sep.length - 1) rest) []
    else
      splitFuel sep n rest (c :: cur)

/-- Python `s.split(sep)` for a non-empty separator `sep`. -/
def splitOnSeq (sep l : List Char) : List (List Char) :=
  splitFuel sep l.length l []

/-- Python `"\n".join(lines)`. -/
def joinNl (lines : List (List Char)) : List Char :=
  List.intercalate ['\n'] lines

/-! ## `PostgresSqlRunner.run_sql` LIMIT injection (src/tools/sql_tool.py 46-50)

```python
if limit and sql.strip().upper().startswith("SELECT"):
    if "LIMIT" not in sql.upper():
        sql = sql.rstrip(";") + " LIMIT " + str(limit)
```

The `limit` argument is `Optional[int]` with default `100`; `if limit`
is Python truthiness, so both `None` and `0` skip the rewrite. -/

/-- The statement text that `run_sql` actually executes, as a function of
the input SQL text and the `limit` argument (default `some 100`). -/
def run_sql_executed (sql : List Char) (limit : Option Nat) : List Char :=
  match limit with
  | none => sql
  | some l =>
    if l != 0 && leadSeq "SELECT".toList (pyUpper (pyStrip sql)) then
      if !hasSeq "LIMIT".toList (pyUpper sql) then
        pyRstripSemi sql ++ (" LIMIT " ++ toString l).toList
      else sql
    else sql

/-! ## pgvector similarity queries (src/memory/pgvector_memory.py)

Embeddings are abstracted to a type `V` together with a distance function
`dist : V → V → ℚ` standing for pgvector's cosine-distance operator
`<=>`; similarity is `1 - dist`, exactly as written in the SQL of the
source. Each table row carries `rowid`, the insertion sequence number. -/

/-- A row of the `vanna_ddl` table. -/
structure DdlRow (V : Type) where
  rowid : Nat
  ddl_text : String
  emb : V
  deriving DecidableEq

/-- A row of the `vanna_documentation` table. -/
structure DocRow (V : Type) where
  rowid : Nat
  doc_text : String
  emb : V
  deriving DecidableEq

/-- A row of the `vanna_sql_examples` table. -/
structure ExampleRow (V : Type) where
  rowid : Nat
  question : String
  sql_query : String
  emb : V
  deriving DecidableEq

/-- A row of the `vanna_tool_memory` table (a `ToolMemoryRecord`). -/
structure ToolMemRow (V : Type) where
  rowid : Nat
  question : String
  tool_name : String
  args : String
  user_id : Option String
  success : Bool
  emb : V
  deriving DecidableEq

/-- Relational semantics of `SELECT ... WHERE pred ORDER BY key ASC LIMIT lim`:
the output is the `lim`-capped initial segment of SOME reordering of the
filtered rows that is nondecreasing in the sort key. PostgreSQL's ORDER BY
fixes only the key order; the relative order of rows with equal keys is
unspecified, so every such reordering is an admissible execution. -/
def admissibleSelect {α : Type} (pred : α → Bool) (key : α → ℚ) (lim : Nat)
    (rows out : List α) : Prop :=
  ∃ l, List.Perm l (rows.filter pred) ∧
    List.Sorted (fun a b => key a ≤ key b) l ∧ out = l.take lim

/-- The WHERE clause of `search_similar_usage` (pgvector_memory.py 75-88):
`success = TRUE`, `1 - (embedding <=> $1::vector) >= $2` (the similarity
threshold), and `tool_name = $n` when the filter is Python-truthy (a
`None` or empty-string filter adds no clause, per `if tool_name_filter:`). -/
def usagePred {V : Type} (dist : V → V → ℚ) (qe : V) (threshold : ℚ)
    (tool_name_filter : Option String) (r : ToolMemRow V) : Bool :=
  r.success && decide (threshold ≤ 1 - dist r.emb qe) &&
    (match tool_name_filter with
     | none => true
     | some t => if t = "" then true else r.tool_name == t)

/-- Admissible outputs of `search_similar_usage`: filter by `usagePred`,
order by distance ascending (`ORDER BY embedding <=> $1::vector`), cap at
`LIMIT lim`. -/
def search_similar_usage_admissible {V : Type} (dist : V → V → ℚ)
    (rows : List (ToolMemRow V)) (qe : V) (threshold : ℚ) (lim : Nat)
    (tool_name_filter : Option String) (out : List (ToolMemRow V)) : Prop :=
  admissibleSelect (usagePred dist qe threshold tool_name_filter)
    (fun r => dist r.emb qe) lim rows out

/-- Admissible outputs of `search_ddl` (no WHERE clause; order by distance,
cap at `LIMIT lim`). -/
def search_ddl_admissible {V : Type} (dist : V → V → ℚ) (rows : List (DdlRow V))
    (qe : V) (lim : Nat) (out : List (DdlRow V)) : Prop :=
  admissibleSelect (fun _ => true) (fun r => dist r.emb qe) lim rows out

/-- Admissible outputs of `search_documentation`. -/
def search_documentation_admissible {V : Type} (dist : V → V → ℚ)
    (rows : List (DocRow V)) (qe : V) (lim : Nat) (out : List (DocRow V)) : Prop :=
  admissibleSelect (fun _ => true) (fun r => dist r.emb qe) lim rows out

/-- Admissible outputs of `search_sql_examples`. -/
def search_sql_examples_admissible {V : Type} (dist : V → V → ℚ)
    (rows : List (ExampleRow V)) (qe : V) (lim : Nat) (out : List (ExampleRow V)) : Prop :=
  admissibleSelect (fun _ => true) (fun r => dist r.emb qe) lim rows out

/-- Insert into a key-sorted list, keeping it sorted. -/
def insertByKey {α β : Type} [LinearOrder β] (key : α → β) (a : α) :
    List α → List α
  | [] => [a]
  | b :: bs => if key a ≤ key b then a :: b :: bs else b :: insertByKey key a bs

/-- Insertion sort by a key: a deterministic choice of ORDER BY execution. -/
def sortByKey {α β : Type} [LinearOrder β] (key : α → β) : List α → List α
  | [] => []
  | a :: as => insertByKey key a (sortByKey key as)

/-- The three knowledge collections behind `PgVectorAgentMemory`. -/
structure MemoryStore (V : Type) where
  ddl : List (DdlRow V)
  docs : List (DocRow V)
  examples : List (ExampleRow V)

/-- Executable model of `search_ddl` (pgvector_memory.py 109-122): embed
the question — the call to the embedding service is recorded in the second
component — then return the `limit` nearest `ddl_text`s by distance. -/
def search_ddl {V : Type} (dist : V → V → ℚ) (embedFn : String → V)
    (store : MemoryStore V) (question : String) (limit : Nat) :
    List String × List String :=
  let e := embedFn question
  (((sortByKey (fun r => dist r.emb e) store.ddl).take limit).map
      (fun r => r.ddl_text),
    [question])

/-- Executable model of `search_documentation` (pgvector_memory.py 124-137). -/
def search_documentation {V : Type} (dist : V → V → ℚ) (embedFn : String → V)
    (store : MemoryStore V) (question : String) (limit : Nat) :
    List String × List String :=
  let e := embedFn question
  (((sortByKey (fun r => dist r.emb e) store.docs).take limit).map
      (fun r => r.doc_text),
    [question])

/-- Executable model of `search_sql_examples` (pgvector_memory.py 139-156):
each result carries `question`, `sql` and `similarity = 1 - distance`. -/
def search_sql_examples {V : Type} (dist : V → V → ℚ) (embedFn : String → V)
    (store : MemoryStore V) (question : String) (limit : Nat) :
    List (String × String × ℚ) × List String :=
  let e := embedFn question
  (((sortByKey (fun r => dist r.emb e) store.examples).take limit).map
      (fun r => (r.question, r.sql_query, 1 - dist r.emb e)),
    [question])

/-- The RAG context dict returned by `get_context_for_question`. -/
structure RagContext where
  ddl : List String
  documentation : List String
  sql_examples : List (String × String × ℚ)
  deriving DecidableEq

/-- Executable model of `get_context_for_question` (pgvector_memory.py
158-171): three collection searches with K = 10, 5, 5. The second component
is the concatenated trace of embedding-service invocations, in order. -/
def get_context_for_question {V : Type} (dist : V → V → ℚ)
    (embedFn : String → V) (store : MemoryStore V) (question : String) :
    RagContext × List String :=
  let ddlR := search_ddl dist embedFn store question 10
  let docR := search_documentation dist embedFn store question 5
  let exR := search_sql_examples dist embedFn store question 5
  ({ ddl := ddlR.1, documentation := docR.1, sql_examples := exR.1 },
    ddlR.2 ++ docR.2 ++ exR.2)

/-- Ties (equal similarity) ordered by insertion sequence: the deterministic
tie-break the specification claims for the similarity searches. -/
def tiesByInsertion {α : Type} (key : α → ℚ) (seq : α → Nat) (out : List α) : Prop :=
  List.Pairwise (fun a b => key a = key b → seq a < seq b) out

/-- A degenerate distance under which all embeddings tie, as happens for
cosine distance between identical embedding vectors. Used for concrete
instances. -/
def constDist : Unit → Unit → ℚ := fun _ _ => 0

/-- Concrete `vanna_ddl` row inserted first. -/
def ddlRow0 : DdlRow Unit := ⟨0, "d0", ()⟩

/-- Concrete `vanna_ddl` row inserted second. -/
def ddlRow1 : DdlRow Unit := ⟨1, "d1", ()⟩

/-- Concrete successful `vanna_tool_memory` row. -/
def memRow0 : ToolMemRow Unit := ⟨0, "q0", "run_sql", "", none, true, ()⟩

/-! ## PostgresConversationStore (src/conversation/postgres_conversation_store.py)

The `conversations` and `conversation_messages` tables are modelled as
explicit row lists; `id` is the conversations primary key, and the
messages table has a cascading foreign key on `conversation_id`. -/

/-- A row of the `conversations` table. -/
structure ConvRow where
  id : String
  user_id : String
  deriving DecidableEq

/-- A row of the `conversation_messages` table. -/
structure MsgRow where
  conversation_id : String
  role : String
  content : String
  ts : Nat
  deriving DecidableEq

/-- The conversation-store database state. -/
structure ConvState where
  convs : List ConvRow
  msgs : List MsgRow
  deriving DecidableEq

/-- A chat message as returned to callers. -/
structure Message where
  role : String
  content : String
  ts : Nat
  deriving DecidableEq

/-- A conversation with its messages as returned to callers. -/
structure Conversation where
  id : String
  user_id : String
  messages : List Message
  deriving DecidableEq

/-- Model of `get_conversation` (postgres_conversation_store.py 174-227):
fetch the conversation row matching `WHERE id = $1 AND user_id = $2`; if
there is none return `None`; otherwise return it together with its
messages ordered by timestamp ascending. -/
def get_conversation (s : ConvState) (conversation_id user_id : String) :
    Option Conversation :=
  match (s.convs.filter
      (fun r => r.id == conversation_id && r.user_id == user_id)).head? with
  | none => none
  | some conv =>
    let message_rows := sortByKey (fun m : MsgRow => m.ts)
      (s.msgs.filter (fun m => m.conversation_id == conversation_id))
    some { id := conv.id, user_id := conv.user_id,
           messages := message_rows.map (fun m => ⟨m.role, m.content, m.ts⟩) }

/-- Model of `delete_conversation` (postgres_conversation_store.py 267-290):
`DELETE FROM conversations WHERE id = $1 AND user_id = $2`; messages of the
deleted conversations go with them (`ON DELETE CASCADE`). Returns whether
any row was deleted, paired with the resulting state. -/
def delete_conversation (s : ConvState) (conversation_id user_id : String) :
    Bool × ConvState :=
  let deleted := s.convs.filter
    (fun r => r.id == conversation_id && r.user_id == user_id)
  let kept := s.convs.filter
    (fun r => !(r.id == conversation_id && r.user_id == user_id))
  let keptMsgs := s.msgs.filter
    (fun m => !(deleted.any (fun r => r.id == m.conversation_id)))
  (!deleted.isEmpty, { convs := kept, msgs := keptMsgs })

/-- Model of `get_recent_messages` (postgres_conversation_store.py 316-365):
if no conversation row matches both id and user_id (the ownership EXISTS
check), return `[]`; otherwise the `limit` most recent messages by
timestamp, reversed back into chronological order. -/
def get_recent_messages (s : ConvState) (conversation_id user_id : String)
    (limit : Nat) : List Message :=
  if (s.convs.filter
      (fun r => r.id == conversation_id && r.user_id == user_id)).isEmpty then
    []
  else
    (((sortByKey (fun m : MsgRow => m.ts)
        (s.msgs.filter (fun m => m.conversation_id == conversation_id))).reverse.take
          limit).reverse).map
      (fun m => ⟨m.role, m.content, m.ts⟩)

/-! ## `VannaTextToSqlAgent` (src/agent/vanna_agent.py) -/

/-- The SELECT-line scan of `_extract_sql_from_text` (vanna_agent.py
202-213): once a line containing `SELECT` (case-insensitively) is seen,
collect lines; stop after the first collected line containing `;`. -/
def collectSqlLines : List (List Char) → Bool → List (List Char)
  | [], _ => []
  | line :: rest, in_sql =>
    let in_sql2 := in_sql || hasSeq "SELECT".toList (pyUpper line)
    if in_sql2 then
      if hasSeq [';'] line then [line]
      else line :: collectSqlLines rest true
    else collectSqlLines rest false

/-- Model of `_extract_sql_from_text` (vanna_agent.py 192-215): prefer a
```sql fenced block — the fence presence test is on the lowercased text
but the split is on the original text, exactly as in the source, so a
mixed-case fence falls through — otherwise scan for a SELECT line through
the next semicolon; otherwise return the empty string. -/
def extract_sql_from_text (text : String) : String :=
  let t := text.toList
  let parts := splitOnSeq "```sql".toList t
  if hasSeq "```sql".toList (pyLower t) = true ∧ 1 < parts.length then
    String.mk (pyStrip ((splitOnSeq "```".toList (parts.getD 1 [])).headD []))
  else if hasSeq "SELECT".toList (pyUpper t) then
    String.mk (pyStrip (joinNl (collectSqlLines (splitOnSeq ['\n'] t) false)))
  else ""

/-- The fixed instructional template of `_build_system_prompt`
(vanna_agent.py 150-170). -/
def vannaSystemTemplate : String :=
  "You are a SQL expert assistant. Generate PostgreSQL queries for the AdventureWorksDW database.

IMPORTANT INSTRUCTIONS:
- Generate valid PostgreSQL syntax
- Use proper table and column names from the schema
- Include appropriate JOINs, WHERE clauses, and aggregations
- Always use the run_sql tool to execute queries
- Be concise and accurate
- You must ONLY answer questions that are directly related to the provided data or the DB schema
- If a question is not related to the data or schema , or is out of scope (e.g. politics, opinions, instructions unrelated to the database, general knowledge), respond with: I can only answer questions related to the data or analysis of the data.
- **Language:** Match the user\x27s language — English → English, Hebrew → Hebrew.
- **Security:** SELECT queries only. If asked to modify data, respond: \"I can only execute SELECT queries.\"
**Additional guidelines:**
- Ask clarifying questions if the request is ambiguous

**Error Handling:**
1. **On first error:** Analyze the error message. If the fix is obvious (typo, wrong column name, missing JOIN, syntax error), silently correct and retry — do NOT mention the error to the user.
2. **On second error (or if the fix is unclear):** Stop retrying. Briefly explain the issue and ask the user for clarification.
3. **Never retry more than once.**

"

/-- Model of `_build_system_prompt` (vanna_agent.py 148-190): the template
plus, for each non-empty collection, its section — the first 10 DDL texts
each followed by a blank line, every documentation text as a bullet, and
only the first 3 SQL examples. -/
def build_system_prompt (context : RagContext) : String :=
  let p0 := vannaSystemTemplate
  let p1 := if context.ddl ≠ [] then
      p0 ++ "\n## DATABASE SCHEMA:\n" ++
        String.join ((context.ddl.take 10).map (fun d => d ++ "\n\n"))
    else p0
  let p2 := if context.documentation ≠ [] then
      p1 ++ "\n## BUSINESS RULES:\n" ++
        String.join (context.documentation.map (fun d => "- " ++ d ++ "\n"))
    else p1
  if context.sql_examples ≠ [] then
    p2 ++ "\n## SIMILAR EXAMPLES:\n" ++
      String.join ((context.sql_examples.take 3).map
        (fun e => "Q: " ++ e.1 ++ "\nSQL: " ++ e.2.1 ++ "\n\n"))
  else p2

/-- The result dict of `PostgresSqlRunner.run_sql` as the orchestrator sees
it: `columns`, `rows`, `row_count`, and the `error` key, present iff
`some`. -/
structure QueryResult where
  columns : List String
  rows : List (List String)
  row_count : Nat
  error : Option String
  deriving DecidableEq

/-- A value of the `process_question` response dict. -/
inductive Value where
  | vNull : Value
  | vStr : String → Value
  | vQuery : QueryResult → Value
  deriving DecidableEq

/-- The response dict, modelled as an association list so that the set of
keys is observable. -/
abbrev RespDict := List (String × Value)

/-- Python `d[k] = v`: replace the value of an existing key, or append a
new binding. -/
def dictSet (d : RespDict) (k : String) (v : Value) : RespDict :=
  match d with
  | [] => [(k, v)]
  | (k', v') :: rest =>
    if k' = k then (k, v) :: rest else (k', v') :: dictSet rest k v

/-- The dict returned by the `except` handler of `process_question`
(vanna_agent.py 139-146). -/
def errorDict (question msg : String) : RespDict :=
  [("question", Value.vStr question), ("sql", Value.vNull),
   ("results", Value.vNull), ("explanation", Value.vNull),
   ("error", Value.vStr msg)]

/-- A tool call of the LLM response: the function name, and the outcome of
`json.loads(arguments).get("sql")` — `.error` when `json.loads` raises,
`.ok none` when there is no usable `sql` value, `.ok (some s)` when the
arguments carry the SQL string `s`. -/
structure ToolCall where
  fname : String
  arguments : Except String (Option String)

/-- The LLM response dict: `content` (`none` models an absent key) and
`tool_calls` (the key is present iff `some`, even for an empty list, which
matters because an empty-but-present `tool_calls` still skips the
free-text `elif`). -/
structure LlmResp where
  content : Option String
  tool_calls : Option (List ToolCall)

/-- One joint behavior of the orchestrator's collaborators. Each field
gives the outcome of the corresponding awaited call, `.error e` meaning
the call raised an exception whose message is `e`. `runSql` and
`saveUsage` are indexed by the number of earlier calls of the same kind. -/
structure Behavior where
  resolveUser : Except String String
  getContext : Except String RagContext
  llmGenerate : Except String LlmResp
  runSql : Nat → String → Except String QueryResult
  saveUsage : Nat → Except String Unit

/-- Observable events of one `process_question` run: SQL executions and
memory-write attempts, with their outcomes. -/
inductive Ev where
  | ranSqlOk : String → QueryResult → Ev
  | ranSqlExn : String → String → Ev
  | savedOk : String → String → Bool → Ev
  | savedExn : String → String → Bool → String → Ev
  deriving DecidableEq

/-- The `for tool_call in response["tool_calls"]` loop of
`process_question` (vanna_agent.py 94-118): for each tool call named
`run_sql` whose arguments yield a truthy `sql`, set `result["sql"]`,
execute, set `result["results"]`, and either attempt the memory write
(no `error` key in the execution result) or set `result["error"]`. An
`.error` outcome aborts the loop, to be caught by the orchestrator's
`except` handler. Returns the loop outcome, the updated call counters and
the event trace. -/
def runToolCalls (b : Behavior) (question : String) :
    List ToolCall → RespDict → Nat → Nat →
    Except String RespDict × Nat × Nat × List Ev
  | [], d, nRun, nSave => (.ok d, nRun, nSave, [])
  | tc :: rest, d, nRun, nSave =>
    if tc.fname = "run_sql" then
      match tc.arguments with
      | .error e => (.error e, nRun, nSave, [])
      | .ok none => runToolCalls b question rest d nRun nSave
      | .ok (some s) =>
        if s = "" then runToolCalls b question rest d nRun nSave
        else
          let d1 := dictSet d "sql" (Value.vStr s)
          match b.runSql nRun s with
          | .error e => (.error e, nRun + 1, nSave, [Ev.ranSqlExn s e])
          | .ok qr =>
            let d2 := dictSet d1 "results" (Value.vQuery qr)
            match qr.error with
            | none =>
              match b.saveUsage nSave with
              | .error e =>
                (.error e, nRun + 1, nSave + 1,
                  [Ev.ranSqlOk s qr, Ev.savedExn question s true e])
              | .ok _ =>
                let r := runToolCalls b question rest d2 (nRun + 1) (nSave + 1)
                (r.1, r.2.1, r.2.2.1,
                  Ev.ranSqlOk s qr :: Ev.savedOk question s true :: r.2.2.2)
            | some msg =>
              let d3 := dictSet d2 "error" (Value.vStr msg)
              let r := runToolCalls b question rest d3 (nRun + 1) nSave
              (r.1, r.2.1, r.2.2.1, Ev.ranSqlOk s qr :: r.2.2.2)
    else runToolCalls b question rest d nRun nSave

/-- The `try` body of `process_question` (vanna_agent.py 57-137), paired
with the event trace of the run. -/
def process_question_aux (b : Behavior) (question : String) :
    Except String RespDict × List Ev :=
  match b.resolveUser with
  | .error e => (.error e, [])
  | .ok _user =>
    match b.getContext with
    | .error e => (.error e, [])
    | .ok context =>
      let system_prompt := build_system_prompt context
      match b.llmGenerate with
      | .error e => (.error e, [])
      | .ok response =>
        let d0 : RespDict :=
          [("question", Value.vStr question), ("sql", Value.vNull),
           ("results", Value.vNull),
           ("explanation", Value.vStr (response.content.getD "")),
           ("prompt", Value.vStr system_prompt), ("error", Value.vNull)]
        match response.tool_calls with
        | some tcs =>
          let r := runToolCalls b question tcs d0 0 0
          (r.1, r.2.2.2)
        | none =>
          match response.content with
          | none => (.ok d0, [])
          | some c =>
            if c = "" then (.ok d0, [])
            else
              let sql := extract_sql_from_text c
              if sql = "" then (.ok d0, [])
              else
                let d1 := dictSet d0 "sql" (Value.vStr sql)
                match b.runSql 0 sql with
                | .error e => (.error e, [Ev.ranSqlExn sql e])
                | .ok qr =>
                  let d2 := dictSet d1 "results" (Value.vQuery qr)
                  match qr.error with
                  | none =>
                    match b.saveUsage 0 with
                    | .error e =>
                      (.error e,
                        [Ev.ranSqlOk sql qr, Ev.savedExn question sql true e])
                    | .ok _ =>
                      (.ok d2, [Ev.ranSqlOk sql qr, Ev.savedOk question sql true])
                  | some _ => (.ok d2, [Ev.ranSqlOk sql qr])

/-- Model of `process_question` (vanna_agent.py 42-146): run the `try`
body; any `.error` outcome is caught and converted to the uniform error
dict. Returns the response dict together with the event trace. -/
def process_question (b : Behavior) (question : String) :
    RespDict × List Ev :=
  match process_question_aux b question with
  | (.ok d, evs) => (d, evs)
  | (.error e, evs) => (errorDict question e, evs)

/-- A trace is save-gated when every no-`error` SQL execution is followed
by exactly one memory-write attempt, with `success=True`, for the same
SQL; an execution whose result carries `error`, or which raised, is
followed by no write; and writes occur nowhere else. -/
def gatedTrace : List Ev → Bool
  | [] => true
  | Ev.ranSqlOk s qr :: Ev.savedOk _ s' succ :: rest =>
    match qr.error with
    | none => s' == s && succ && gatedTrace rest
    | some _ => false
  | Ev.ranSqlOk s qr :: Ev.savedExn _ s' succ _ :: rest =>
    match qr.error with
    | none => s' == s && succ && gatedTrace rest
    | some _ => false
  | Ev.ranSqlOk _ qr :: rest =>
    match qr.error with
    | none => false
    | some _ => gatedTrace rest
  | Ev.ranSqlExn _ _ :: rest => rest.isEmpty
  | Ev.savedOk _ _ _ :: _ => false
  | Ev.savedExn _ _ _ _ :: _ => false

/-- Does a trace start with an execution event (or is it empty)? Auxiliary
invariant for `gatedTrace`. -/
def headIsRan : List Ev → Bool
  | [] => true
  | Ev.ranSqlOk _ _ :: _ => true
  | Ev.ranSqlExn _ _ :: _ => true
  | _ => false

/-- The SQL strings executed in a trace, in order. -/
def ranSqls : List Ev → List String
  | [] => []
  | Ev.ranSqlOk s _ :: rest => s :: ranSqls rest
  | Ev.ranSqlExn s _ :: rest => s :: ranSqls rest
  | Ev.savedOk _ _ _ :: rest => ranSqls rest
  | Ev.savedExn _ _ _ _ :: rest => ranSqls rest

/-- The SQL strings for which a memory write was attempted, in order. -/
def savedSqls : List Ev → List String
  | [] => []
  | Ev.savedOk _ s _ :: rest => s :: savedSqls rest
  | Ev.savedExn _ s _ _ :: rest => s :: savedSqls rest
  | Ev.ranSqlOk _ _ :: rest => savedSqls rest
  | Ev.ranSqlExn _ _ :: rest => savedSqls rest

/-- A well-formed `run_sql` tool call whose arguments carry `sql = s`. -/
def mkRunSqlCall (s : String) : ToolCall :=
  ⟨"run_sql", .ok (some s)⟩

/-- The error message of the last failed execution among (sql, result)
pairs, if any: what the sticky `error` field ends up holding, since a
later success does not clear it. -/
def lastFailure : List (String × QueryResult) → Option String
  | [] => none
  | (_, qr) :: rest =>
    match lastFailure rest with
    | some m => some m
    | none => qr.error

/-- The response dict produced by executing a batch of (sql, result)
pairs in order from `d`: `sql` and `results` are overwritten each time;
`error` is set only on failures. -/
def applyPairs (d : RespDict) : List (String × QueryResult) → RespDict
  | [] => d
  | (s, qr) :: rest =>
    let d2 := dictSet (dictSet d "sql" (Value.vStr s)) "results" (Value.vQuery qr)
    match qr.error with
    | none => applyPairs d2 rest
    | some msg => applyPairs (dictSet d2 "error" (Value.vStr msg)) rest

/-- The event trace produced by executing a batch of (sql, result) pairs
in order, every execution returning normally and every save succeeding. -/
def traceOfPairs (question : String) : List (String × QueryResult) → List Ev
  | [] => []
  | (s, qr) :: rest =>
    match qr.error with
    | none =>
      Ev.ranSqlOk s qr :: Ev.savedOk question s true :: traceOfPairs question rest
    | some _ => Ev.ranSqlOk s qr :: traceOfPairs question rest

/-- Behavior: the user resolver raises. -/
def bUserFail : Behavior :=
  { resolveUser := Except.error "auth down"
  , getContext := Except.ok ⟨[], [], []⟩
  , llmGenerate := Except.ok ⟨none, none⟩
  , runSql := fun _ _ => Except.ok ⟨[], [], 0, none⟩
  , saveUsage := fun _ => Except.ok () }

/-- Behavior: one successful `run_sql` tool call, then the memory write
raises. -/
def bSaveFail : Behavior :=
  { resolveUser := Except.ok "default"
  , getContext := Except.ok ⟨[], [], []⟩
  , llmGenerate := Except.ok ⟨some "", some [mkRunSqlCall "SELECT 1"]⟩
  , runSql := fun _ _ => Except.ok ⟨["c"], [["1"]], 1, none⟩
  , saveUsage := fun _ => Except.error "db down" }

/-- Behavior: one `run_sql` tool call whose execution fails. -/
def bToolFail : Behavior :=
  { resolveUser := Except.ok "default"
  , getContext := Except.ok ⟨[], [], []⟩
  , llmGenerate := Except.ok ⟨some "", some [mkRunSqlCall "SELECT nope"]⟩
  , runSql := fun _ _ => Except.ok ⟨[], [], 0, some "bad column"⟩
  , saveUsage := fun _ => Except.ok () }

/-- Behavior: no tool call; free-text content carrying SQL whose execution
fails. -/
def bFreeTextFail : Behavior :=
  { resolveUser := Except.ok "default"
  , getContext := Except.ok ⟨[], [], []⟩
  , llmGenerate := Except.ok ⟨some "SELECT 1;", none⟩
  , runSql := fun _ _ => Except.ok ⟨[], [], 0, some "boom"⟩
  , saveUsage := fun _ => Except.ok () }

/-- Behavior: two `run_sql` tool calls; the first execution fails, the
second succeeds. -/
def bTwoCalls : Behavior :=
  { resolveUser := Except.ok "default"
  , getContext := Except.ok ⟨[], [], []⟩
  , llmGenerate := Except.ok
      ⟨some "", some [mkRunSqlCall "SQL1", mkRunSqlCall "SQL2"]⟩
  , runSql := fun i _ =>
      if i = 0 then Except.ok ⟨[], [], 0, some "e1"⟩
      else Except.ok ⟨["c"], [["2"]], 1, none⟩
  , saveUsage := fun _ => Except.ok () }

lemma pyIsSpace_toUpper {c : Char} (h : pyIsSpace c = true) : c.toUpper = c := by
  simp only [pyIsSpace, Bool.or_eq_true, decide_eq_true_eq] at h
  rcases h with ((((h | h) | h) | h) | h) | h <;> subst h <;> decide

lemma leadSeq_append {t u w : List Char} (h : leadSeq t u = true) :
    leadSeq t (u ++ w) = true := by
  induction t generalizing u with
  | nil => rfl
  | cons a as ih =>
    cases u with
    | nil => simp [leadSeq] at h
    | cons b bs =>
      simp only [leadSeq, Bool.and_eq_true] at h ⊢
      exact ⟨h.1, ih h.2⟩

lemma leadSeq_of_append {t u w : List Char}
    (ht : ∀ c ∈ t, pyIsSpace c = false) (hw : ∀ c ∈ w, pyIsSpace c = true)
    (h : leadSeq t (u ++ w) = true) : leadSeq t u = true := by
  induction t generalizing u with
  | nil => rfl
  | cons a as ih =>
    cases u with
    | nil =>
      cases w with
      | nil => simp [leadSeq] at h
      | cons c cs =>
        simp only [List.nil_append, leadSeq, Bool.and_eq_true, decide_eq_true_eq] at h
        have h1 : pyIsSpace a = false := ht a (by simp)
        have h2 : pyIsSpace c = true := hw c (by simp)
        rw [h.1, h2] at h1
        exact absurd h1 (by simp)
    | cons b bs =>
      simp only [List.cons_append, leadSeq, Bool.and_eq_true] at h ⊢
      exact ⟨h.1, ih (fun c hc => ht c (List.mem_cons_of_mem a hc)) h.2⟩

lemma pyLstrip_eq_pyStrip_append (s : List Char) :
    ∃ w, pyLstrip s = pyStrip s ++ w ∧ ∀ c ∈ w, pyIsSpace c = true := by
  refine ⟨((s.dropWhile pyIsSpace).reverse.takeWhile pyIsSpace).reverse, ?_, ?_⟩
  · show s.dropWhile pyIsSpace = _
    conv_lhs => rw [← List.reverse_reverse (s.dropWhile pyIsSpace),
      ← List.takeWhile_append_dropWhile (p := pyIsSpace)
        (l := (s.dropWhile pyIsSpace).reverse), List.reverse_append]
    rfl
  · intro c hc
    exact List.mem_takeWhile_imp (List.mem_reverse.mp hc)

/-- Under the `run_sql` rewrite, the stripped-leading-whitespace SELECT test
of the specification agrees with the source's `sql.strip()` (both ends)
test: trailing whitespace cannot contribute to a `SELECT` leading segment. -/
lemma leadSeq_select_lstrip_iff_strip (s : List Char) :
    leadSeq "SELECT".toList (pyUpper (pyLstrip s)) =
      leadSeq "SELECT".toList (pyUpper (pyStrip s)) := by
  obtain ⟨w, hw1, hw2⟩ := pyLstrip_eq_pyStrip_append s
  have hmap : pyUpper (pyLstrip s) = pyUpper (pyStrip s) ++ pyUpper w := by
    rw [hw1]; exact List.map_append _ _ _
  have hwspace : ∀ c ∈ pyUpper w, pyIsSpace c = true := by
    intro c hc
    obtain ⟨c', hc', rfl⟩ := List.mem_map.mp hc
    have := hw2 c' hc'
    rw [pyIsSpace_toUpper this]
    exact this
  rw [hmap]
  rcases h : leadSeq "SELECT".toList (pyUpper (pyStrip s)) with _ | _
  · rcases h2 : leadSeq "SELECT".toList (pyUpper (pyStrip s) ++ pyUpper w) with _ | _
    · rfl
    · have hs := leadSeq_of_append (t := "SELECT".toList) (by decide) hwspace h2
      rw [hs] at h
      simp at h
  · exact leadSeq_append h

example : run_sql_executed "select * from t;".toList (some 100) =
    "select * from t LIMIT 100".toList := by decide

example : run_sql_executed "SELECT x FROM t LIMIT 5".toList (some 100) =
    "SELECT x FROM t LIMIT 5".toList := by decide

example : run_sql_executed "  select 1".toList (some 100) =
    "  select 1 LIMIT 100".toList := by decide

example : run_sql_executed "DROP TABLE t".toList (some 100) =
    "DROP TABLE t".toList := by decide

/-- C5: for every input whose leading-whitespace-stripped text starts
case-insensitively with `SELECT` and which does not contain `LIMIT`
(case-insensitively), `run_sql` executes the input with its trailing
semicolons removed and exactly one `" LIMIT 100"` appended (the default
cap); for every such SELECT input that does contain `LIMIT`, the statement
is executed unchanged. -/
theorem run_sql_limit_injection (s : List Char)
    (hsel : leadSeq "SELECT".toList (pyUpper (pyLstrip s)) = true) :
    (hasSeq "LIMIT".toList (pyUpper s) = false →
      run_sql_executed s (some 100) = pyRstripSemi s ++ " LIMIT 100".toList) ∧
    (hasSeq "LIMIT".toList (pyUpper s) = true →
      run_sql_executed s (some 100) = s) := by
  have key : leadSeq "SELECT".toList (pyUpper (pyStrip s)) = true := by
    rw [← leadSeq_select_lstrip_iff_strip]
    exact hsel
  have hc : ((100 : Nat) != 0 && leadSeq "SELECT".toList (pyUpper (pyStrip s))) = true := by
    rw [key]; rfl
  constructor
  · intro hno
    simp only [run_sql_executed, hc, if_true, hno, Bool.not_false]
    congr 1
  · intro hyes
    simp only [run_sql_executed, hc, if_true, hyes, Bool.not_true]
    simp

/-- Witness for `run_sql_limit_injection` at two concrete inputs. -/
theorem run_sql_limit_injection_witness :
    run_sql_executed "select * from t;".toList (some 100) =
        "select * from t LIMIT 100".toList ∧
    run_sql_executed "SELECT x FROM t LIMIT 5".toList (some 100) =
        "SELECT x FROM t LIMIT 5".toList := by
  constructor
  · have h := (run_sql_limit_injection "select * from t;".toList (by decide)).1 (by decide)
    rw [h]
    decide
  · exact (run_sql_limit_injection "SELECT x FROM t LIMIT 5".toList (by decide)).2 (by decide)

/-! ## Similarity-search theorems (C4, C6, C7) -/

lemma admissibleSelect_mem {α : Type} {pred : α → Bool} {key : α → ℚ}
    {lim : Nat} {rows out : List α}
    (h : admissibleSelect pred key lim rows out) :
    ∀ r ∈ out, r ∈ rows ∧ pred r = true := by
  obtain ⟨l, hperm, _, rfl⟩ := h
  intro r hr
  exact List.mem_filter.mp (hperm.mem_iff.mp (List.mem_of_mem_take hr))

lemma admissibleSelect_length {α : Type} {pred : α → Bool} {key : α → ℚ}
    {lim : Nat} {rows out : List α}
    (h : admissibleSelect pred key lim rows out) : out.length ≤ lim := by
  obtain ⟨l, _, _, rfl⟩ := h
  rw [List.length_take]
  exact min_le_left _ _

lemma admissibleSelect_sorted {α : Type} {pred : α → Bool} {key : α → ℚ}
    {lim : Nat} {rows out : List α}
    (h : admissibleSelect pred key lim rows out) :
    List.Pairwise (fun a b => key a ≤ key b) out := by
  obtain ⟨l, _, hs, rfl⟩ := h
  exact List.Pairwise.sublist (List.take_sublist _ _) hs

/-- C6: every admissible result of `search_similar_usage` contains only
records with `success = true` and similarity at least the threshold, whose
`tool_name` matches the filter whenever a (Python-truthy, i.e. non-empty)
filter is given, and has at most `limit` records; this holds for every
threshold in `[0, 1]`. -/
theorem search_similar_usage_threshold_filter {V : Type} (dist : V → V → ℚ)
    (rows : List (ToolMemRow V)) (qe : V) (threshold : ℚ) (lim : Nat)
    (tf : Option String) (out : List (ToolMemRow V))
    (h0 : 0 ≤ threshold) (h1 : threshold ≤ 1)
    (h : search_similar_usage_admissible dist rows qe threshold lim tf out) :
    (∀ r ∈ out, r.success = true ∧ threshold ≤ 1 - dist r.emb qe ∧
      ∀ t, tf = some t → t ≠ "" → r.tool_name = t) ∧
    out.length ≤ lim := by
  refine ⟨?_, admissibleSelect_length h⟩
  intro r hr
  have hp := (admissibleSelect_mem h r hr).2
  simp only [usagePred, Bool.and_eq_true, decide_eq_true_eq] at hp
  refine ⟨hp.1.1, hp.1.2, ?_⟩
  intro t ht hne
  have htool : (if t = "" then true else r.tool_name == t) = true := by
    rw [ht] at hp
    exact hp.2
  rw [if_neg hne] at htool
  exact eq_of_beq htool

/-- Witness for `search_similar_usage_threshold_filter` with one stored
successful record, threshold 1/2, and filter `"run_sql"`. -/
theorem search_similar_usage_threshold_filter_witness :
    (∀ r ∈ ([memRow0] : List (ToolMemRow Unit)), r.success = true ∧
      (1 : ℚ)/2 ≤ 1 - constDist r.emb () ∧
      ∀ t, (some "run_sql" : Option String) = some t → t ≠ "" → r.tool_name = t) ∧
    ([memRow0] : List (ToolMemRow Unit)).length ≤ 10 := by
  have hrow : usagePred constDist () (1/2) (some "run_sql") memRow0 = true := by
    simp only [usagePred, memRow0, constDist, Bool.and_eq_true, decide_eq_true_eq]
    norm_num
  have hfilter :
      List.filter (usagePred constDist () (1/2) (some "run_sql")) [memRow0] =
        [memRow0] := by
    simp only [List.filter_cons, hrow, if_true, List.filter_nil]
  exact search_similar_usage_threshold_filter constDist [memRow0] () (1/2) 10
    (some "run_sql") [memRow0] (by norm_num) (by norm_num)
    ⟨[memRow0], by rw [hfilter], by simp, rfl⟩

/-- C7 counterexample: with two rows carrying identical embeddings (so their
cosine distances to any query tie), the output listing the later-inserted
row first is an admissible execution of the `search_ddl` query, yet its ties
are not in insertion order — the code's `ORDER BY` has no tie-break column,
so equal-similarity items are NOT deterministically ordered by insertion. -/
theorem search_ddl_tie_order_counterexample :
    search_ddl_admissible constDist [ddlRow0, ddlRow1] () 10 [ddlRow1, ddlRow0] ∧
    ¬ tiesByInsertion (fun r => 1 - constDist r.emb ()) (fun r => r.rowid)
        [ddlRow1, ddlRow0] := by
  constructor
  · have hfilter :
        List.filter (fun _ => true) [ddlRow0, ddlRow1] = [ddlRow0, ddlRow1] := by
      simp
    refine ⟨[ddlRow1, ddlRow0], ?_, ?_, rfl⟩
    · rw [hfilter]
      exact List.Perm.swap ddlRow0 ddlRow1 []
    · simp [List.sorted_cons, constDist]
  · intro hcontra
    rw [tiesByInsertion, List.pairwise_cons] at hcontra
    have hlt := hcontra.1 ddlRow0 (by simp) (by norm_num [constDist])
    simp [ddlRow0, ddlRow1] at hlt

/-- C7 amended: every admissible result of each of the four collection
searches is sorted in descending order of similarity `1 - distance`
(equivalently ascending distance); the order among equal-similarity items
is left unspecified by the queries. -/
theorem search_order_descending_similarity {V : Type} (dist : V → V → ℚ)
    (qe : V) (lim : Nat) :
    (∀ (rows out : List (DdlRow V)), search_ddl_admissible dist rows qe lim out →
      List.Pairwise (fun a b => 1 - dist b.emb qe ≤ 1 - dist a.emb qe) out) ∧
    (∀ (rows out : List (DocRow V)),
      search_documentation_admissible dist rows qe lim out →
      List.Pairwise (fun a b => 1 - dist b.emb qe ≤ 1 - dist a.emb qe) out) ∧
    (∀ (rows out : List (ExampleRow V)),
      search_sql_examples_admissible dist rows qe lim out →
      List.Pairwise (fun a b => 1 - dist b.emb qe ≤ 1 - dist a.emb qe) out) ∧
    (∀ (threshold : ℚ) (tf : Option String) (rows out : List (ToolMemRow V)),
      search_similar_usage_admissible dist rows qe threshold lim tf out →
      List.Pairwise (fun a b => 1 - dist b.emb qe ≤ 1 - dist a.emb qe) out) := by
  refine ⟨fun rows out h => ?_, fun rows out h => ?_, fun rows out h => ?_,
    fun threshold tf rows out h => ?_⟩ <;>
    exact (admissibleSelect_sorted h).imp (fun hab => by
      exact sub_le_sub_left hab 1)

/-- Witness for `search_order_descending_similarity` on concrete stores. -/
theorem search_order_descending_similarity_witness :
    List.Pairwise
      (fun a b : DdlRow Unit => 1 - constDist b.emb () ≤ 1 - constDist a.emb ())
      [ddlRow0, ddlRow1] ∧
    List.Pairwise
      (fun a b : ToolMemRow Unit => 1 - constDist b.emb () ≤ 1 - constDist a.emb ())
      ([] : List (ToolMemRow Unit)) :=
  ⟨(search_order_descending_similarity constDist () 10).1 [ddlRow0, ddlRow1]
      [ddlRow0, ddlRow1]
      ⟨[ddlRow0, ddlRow1],
        by rw [show List.filter (fun _ => true) [ddlRow0, ddlRow1] =
            [ddlRow0, ddlRow1] from by simp],
        by simp [List.sorted_cons, constDist], rfl⟩,
   (search_order_descending_similarity constDist () 10).2.2.2 0 none []
      [] ⟨[], by simp, by simp, rfl⟩⟩

/-- C4 counterexample: `get_context_for_question` invokes the embedding
service three times (once inside each of `search_ddl`,
`search_documentation`, `search_sql_examples`), not exactly once: its
embedding-call trace has length 3, refuting "computed exactly once". -/
theorem get_context_single_embedding_counterexample :
    (get_context_for_question constDist (fun _ => ()) ⟨[], [], []⟩
        "total sales").2 = ["total sales", "total sales", "total sales"] ∧
    ¬ (get_context_for_question constDist (fun _ => ()) ⟨[], [], []⟩
        "total sales").2.length = 1 := by
  constructor
  · rfl
  · decide

/-- C4 amended: for every store and question, `get_context_for_question`
computes the question's embedding once per collection search — three times
in total, each time from the same question text — and returns at most
K = 10 DDL texts, 5 documentation texts and 5 SQL examples. -/
theorem get_context_embeds_per_collection {V : Type} (dist : V → V → ℚ)
    (embedFn : String → V) (store : MemoryStore V) (question : String) :
    (get_context_for_question dist embedFn store question).2 =
        [question, question, question] ∧
    (get_context_for_question dist embedFn store question).1.ddl.length ≤ 10 ∧
    (get_context_for_question dist embedFn store question).1.documentation.length ≤ 5 ∧
    (get_context_for_question dist embedFn store question).1.sql_examples.length ≤ 5 := by
  refine ⟨rfl, ?_, ?_, ?_⟩ <;>
    · simp only [get_context_for_question, search_ddl, search_documentation,
        search_sql_examples, List.length_map, List.length_take]
      exact min_le_left _ _

/-! ## Conversation-store isolation (C9) -/

/-- C9: for distinct users A and B, when every conversation row carrying
`conversation_id` belongs to A (which also covers the state where no such
row exists at all), user B observes: `get_conversation` returns `None`,
`delete_conversation` returns `False` and leaves the state unchanged, and
`get_recent_messages` returns `[]` — exactly what B would observe if A's
conversation did not exist, so cross-owner access reveals neither data nor
existence. -/
theorem conversation_isolation (s : ConvState)
    (userA userB conversation_id : String) (hne : userA ≠ userB)
    (hown : ∀ r ∈ s.convs, r.id = conversation_id → r.user_id = userA) :
    get_conversation s conversation_id userB = none ∧
    delete_conversation s conversation_id userB = (false, s) ∧
    ∀ limit, get_recent_messages s conversation_id userB limit = [] := by
  have hhit : ∀ r ∈ s.convs,
      (r.id == conversation_id && r.user_id == userB) = false := by
    intro r hr
    rcases h : r.id == conversation_id && r.user_id == userB with _ | _
    · rfl
    · simp only [Bool.and_eq_true, beq_iff_eq] at h
      exact absurd (by rw [← hown r hr h.1]; exact h.2) hne
  have hfilter : s.convs.filter
      (fun r => r.id == conversation_id && r.user_id == userB) = [] :=
    List.filter_eq_nil_iff.mpr (fun r hr => by simp [hhit r hr])
  refine ⟨?_, ?_, ?_⟩
  · simp [get_conversation, hfilter]
  · have hkept : s.convs.filter
        (fun r => !(r.id == conversation_id && r.user_id == userB)) = s.convs :=
      List.filter_eq_self.mpr (fun r hr => by simp [hhit r hr])
    simp only [delete_conversation, hfilter, hkept, List.any_nil,
      List.isEmpty_nil, Bool.not_true, Bool.not_false, List.filter_true]
  · intro limit
    simp [get_recent_messages, hfilter]

/-- Witness for `conversation_isolation`: a store holding one conversation
of user `alice` with one message; user `bob` sees nothing. -/
theorem conversation_isolation_witness :
    get_conversation ⟨[⟨"c1", "alice"⟩], [⟨"c1", "user", "hi", 0⟩]⟩ "c1" "bob" =
        none ∧
    delete_conversation ⟨[⟨"c1", "alice"⟩], [⟨"c1", "user", "hi", 0⟩]⟩ "c1" "bob" =
        (false, ⟨[⟨"c1", "alice"⟩], [⟨"c1", "user", "hi", 0⟩]⟩) ∧
    get_recent_messages ⟨[⟨"c1", "alice"⟩], [⟨"c1", "user", "hi", 0⟩]⟩ "c1" "bob"
        10 = [] := by
  have h := conversation_isolation ⟨[⟨"c1", "alice"⟩], [⟨"c1", "user", "hi", 0⟩]⟩
    "alice" "bob" "c1" (by decide) (by decide)
  exact ⟨h.1, h.2.1, h.2.2 10⟩

/-! ## Orchestrator lemmas and theorems (C1, C2, C3, C8, C10) -/

example : extract_sql_from_text "SELECT 1;" = "SELECT 1;" := by rfl

example :
    extract_sql_from_text "Sure:\n```sql\nSELECT a FROM t\n```\nthere" =
      "SELECT a FROM t" := by rfl

example : extract_sql_from_text "no sql here" = "" := by rfl

example :
    extract_sql_from_text "look:\nSELECT a\nFROM t;\nmore" =
      "SELECT a\nFROM t;" := by rfl

lemma lookup_dictSet (d : RespDict) (k k' : String) (v : Value) :
    List.lookup k' (dictSet d k v) =
      if k' = k then some v else List.lookup k' d := by
  induction d with
  | nil =>
    by_cases h : k' = k
    · subst h
      simp [dictSet, List.lookup]
    · simp [dictSet, List.lookup, h, beq_eq_false_iff_ne.mpr h]
  | cons p rest ih =>
    obtain ⟨k0, v0⟩ := p
    by_cases hk0 : k0 = k
    · subst hk0
      by_cases h : k' = k0
      · subst h
        simp [dictSet, List.lookup]
      · simp [dictSet, List.lookup, h, beq_eq_false_iff_ne.mpr h]
    · by_cases h : k' = k0
      · subst h
        simp [dictSet, List.lookup, hk0]
      · simp [dictSet, List.lookup, hk0, h, beq_eq_false_iff_ne.mpr h, ih]

lemma lookup_dictSet_isSome (d : RespDict) (k k' : String) (v : Value)
    (h : (List.lookup k' d).isSome) :
    (List.lookup k' (dictSet d k v)).isSome := by
  rw [lookup_dictSet]
  by_cases hk : k' = k <;> simp [hk, h]

lemma runToolCalls_ok_lookup (b : Behavior) (q : String) (tcs : List ToolCall) :
    ∀ (d : RespDict) (nRun nSave : Nat) (d' : RespDict) (r : Nat × Nat × List Ev),
      runToolCalls b q tcs d nRun nSave = (Except.ok d', r) →
      (∀ key, key ≠ "sql" → key ≠ "results" → key ≠ "error" →
        List.lookup key d' = List.lookup key d) ∧
      (∀ key, (List.lookup key d).isSome → (List.lookup key d').isSome) := by
  induction tcs with
  | nil =>
    intro d nRun nSave d' r h
    simp only [runToolCalls, Prod.mk.injEq, Except.ok.injEq] at h
    rw [← h.1]
    exact ⟨fun _ _ _ _ => rfl, fun _ hk => hk⟩
  | cons tc rest ih =>
    intro d nRun nSave d' r h
    rw [runToolCalls] at h
    split at h
    · -- tc.fname = "run_sql"
      split at h
      · -- arguments raised
        simp at h
      · -- arguments carry no usable sql
        exact ih _ _ _ _ _ h
      · -- arguments carry sql s
        rename_i s _
        split at h
        · -- s = ""
          exact ih _ _ _ _ _ h
        · split at h
          · -- runSql raised
            simp at h
          · rename_i qr _
            split at h
            · -- no error key: memory write attempted
              split at h
              · -- save raised
                simp at h
              · simp only [] at h
                rcases hr : runToolCalls b q rest
                    (dictSet (dictSet d "sql" (Value.vStr s)) "results"
                      (Value.vQuery qr)) (nRun + 1) (nSave + 1) with ⟨res1, rr⟩
                rw [hr] at h
                simp only [Prod.mk.injEq] at h
                obtain ⟨hres, -⟩ := h
                subst hres
                obtain ⟨ihA, ihB⟩ := ih _ _ _ d' rr hr
                constructor
                · intro key h1 h2 h3
                  rw [ihA key h1 h2 h3, lookup_dictSet, lookup_dictSet,
                    if_neg h2, if_neg h1]
                · intro key hk
                  exact ihB key
                    (lookup_dictSet_isSome _ _ _ _
                      (lookup_dictSet_isSome _ _ _ _ hk))
            · -- error key present: result["error"] set, no write
              rename_i msg _
              simp only [] at h
              rcases hr : runToolCalls b q rest
                  (dictSet (dictSet (dictSet d "sql" (Value.vStr s)) "results"
                    (Value.vQuery qr)) "error" (Value.vStr msg))
                  (nRun + 1) nSave with ⟨res1, rr⟩
              rw [hr] at h
              simp only [Prod.mk.injEq] at h
              obtain ⟨hres, -⟩ := h
              subst hres
              obtain ⟨ihA, ihB⟩ := ih _ _ _ d' rr hr
              constructor
              · intro key h1 h2 h3
                rw [ihA key h1 h2 h3, lookup_dictSet, lookup_dictSet,
                  lookup_dictSet, if_neg h3, if_neg h2, if_neg h1]
              · intro key hk
                exact ihB key
                  (lookup_dictSet_isSome _ _ _ _
                    (lookup_dictSet_isSome _ _ _ _
                      (lookup_dictSet_isSome _ _ _ _ hk)))
    · exact ih _ _ _ _ _ h

lemma process_question_aux_ok (b : Behavior) (question : String)
    (d' : RespDict) (evs : List Ev)
    (h : process_question_aux b question = (Except.ok d', evs)) :
    (∀ key ∈ (["question", "sql", "results", "explanation", "error"] : List String),
      (List.lookup key d').isSome) ∧
    List.lookup "question" d' = some (Value.vStr question) := by
  rw [process_question_aux] at h
  split at h
  · simp at h
  · split at h
    · simp at h
    · split at h
      · simp at h
      · rename_i resp hresp
        simp only [] at h
        split at h
        · -- tool-call branch
          rename_i tcs htcs
          rcases hr : runToolCalls b question tcs
              [("question", Value.vStr question), ("sql", Value.vNull),
               ("results", Value.vNull),
               ("explanation", Value.vStr (resp.content.getD "")),
               ("prompt", Value.vStr (build_system_prompt _)),
               ("error", Value.vNull)] 0 0 with ⟨res1, rr⟩
          rw [hr] at h
          simp only [Prod.mk.injEq] at h
          obtain ⟨hres, -⟩ := h
          subst hres
          obtain ⟨ihA, ihB⟩ := runToolCalls_ok_lookup b question tcs _ 0 0 d' rr hr
          constructor
          · intro key hk
            simp only [List.mem_cons, List.not_mem_nil, or_false] at hk
            rcases hk with rfl | rfl | rfl | rfl | rfl
            · exact ihB _ (by rfl)
            · exact ihB _ (by rfl)
            · exact ihB _ (by rfl)
            · exact ihB _ (by rfl)
            · exact ihB _ (by rfl)
          · rw [ihA "question" (by decide) (by decide) (by decide)]
            rfl
        · -- free-text branch
          split at h
          · -- content key absent
            simp only [Prod.mk.injEq, Except.ok.injEq] at h
            rw [← h.1]
            exact ⟨fun key hk => by
              simp only [List.mem_cons, List.not_mem_nil, or_false] at hk
              rcases hk with rfl | rfl | rfl | rfl | rfl <;> rfl, rfl⟩
          · split at h
            · -- content empty string
              simp only [Prod.mk.injEq, Except.ok.injEq] at h
              rw [← h.1]
              exact ⟨fun key hk => by
                simp only [List.mem_cons, List.not_mem_nil, or_false] at hk
                rcases hk with rfl | rfl | rfl | rfl | rfl <;> rfl, rfl⟩
            · split at h
              · -- extracted sql empty
                simp only [Prod.mk.injEq, Except.ok.injEq] at h
                rw [← h.1]
                exact ⟨fun key hk => by
                  simp only [List.mem_cons, List.not_mem_nil, or_false] at hk
                  rcases hk with rfl | rfl | rfl | rfl | rfl <;> rfl, rfl⟩
              · split at h
                · -- runSql raised
                  simp at h
                · split at h
                  · -- execution succeeded, no error key
                    split at h
                    · -- save raised
                      simp at h
                    · simp only [Prod.mk.injEq, Except.ok.injEq] at h
                      rw [← h.1]
                      constructor
                      · intro key hk
                        simp only [List.mem_cons, List.not_mem_nil, or_false] at hk
                        rcases hk with rfl | rfl | rfl | rfl | rfl <;>
                          exact lookup_dictSet_isSome _ _ _ _
                            (lookup_dictSet_isSome _ _ _ _ (by rfl))
                      · rw [lookup_dictSet, lookup_dictSet, if_neg (by decide),
                          if_neg (by decide)]
                        rfl
                  · -- execution result carried an error key
                    simp only [Prod.mk.injEq, Except.ok.injEq] at h
                    rw [← h.1]
                    constructor
                    · intro key hk
                      simp only [List.mem_cons, List.not_mem_nil, or_false] at hk
                      rcases hk with rfl | rfl | rfl | rfl | rfl <;>
                        exact lookup_dictSet_isSome _ _ _ _
                          (lookup_dictSet_isSome _ _ _ _ (by rfl))
                    · rw [lookup_dictSet, lookup_dictSet, if_neg (by decide),
                        if_neg (by decide)]
                      rfl

/-- C1: for every question and every behavior of the collaborators —
including any of them raising — `process_question` returns a dict holding
the keys `question`, `sql`, `results`, `explanation` and `error`, with
`question` bound to the input question (the model is a total function, so
no exception escapes); and whenever the `try` body ends in an exception
`e`, the returned dict is exactly the error dict: `sql`, `results` and
`explanation` null and `error` bound to the exception message. -/
theorem process_question_error_containment (b : Behavior) (question : String) :
    (∀ key ∈ (["question", "sql", "results", "explanation", "error"] : List String),
      (List.lookup key (process_question b question).1).isSome) ∧
    List.lookup "question" (process_question b question).1 =
      some (Value.vStr question) ∧
    (∀ e, (process_question_aux b question).1 = Except.error e →
      List.lookup "sql" (process_question b question).1 = some Value.vNull ∧
      List.lookup "results" (process_question b question).1 = some Value.vNull ∧
      List.lookup "explanation" (process_question b question).1 =
        some Value.vNull ∧
      List.lookup "error" (process_question b question).1 =
        some (Value.vStr e)) := by
  rcases haux : process_question_aux b question with ⟨res, evs⟩
  rcases res with e | d'
  · have hout : process_question b question = (errorDict question e, evs) := by
      rw [process_question, haux]
    rw [hout]
    refine ⟨?_, rfl, ?_⟩
    · intro key hk
      simp only [List.mem_cons, List.not_mem_nil, or_false] at hk
      rcases hk with rfl | rfl | rfl | rfl | rfl <;> rfl
    · intro e' he'
      have he2 : (Except.error e : Except String RespDict) = Except.error e' := he'
      rw [Except.error.injEq] at he2
      subst he2
      exact ⟨rfl, rfl, rfl, rfl⟩
  · have hout : process_question b question = (d', evs) := by
      rw [process_question, haux]
    rw [hout]
    obtain ⟨hpres, hq⟩ := process_question_aux_ok b question d' evs haux
    refine ⟨hpres, hq, ?_⟩
    intro e' he'
    simp at he'

/-- Witness for `process_question_error_containment`: the behavior whose
user resolver raises, at the exception message it raises with. -/
theorem process_question_error_containment_witness :
    List.lookup "sql" (process_question bUserFail "q").1 = some Value.vNull ∧
    List.lookup "results" (process_question bUserFail "q").1 = some Value.vNull ∧
    List.lookup "explanation" (process_question bUserFail "q").1 =
      some Value.vNull ∧
    List.lookup "error" (process_question bUserFail "q").1 =
      some (Value.vStr "auth down") :=
  (process_question_error_containment bUserFail "q").2.2 "auth down" rfl

lemma runToolCalls_gated (b : Behavior) (q : String) (tcs : List ToolCall) :
    ∀ (d : RespDict) (nRun nSave : Nat),
      gatedTrace (runToolCalls b q tcs d nRun nSave).2.2.2 = true ∧
      headIsRan (runToolCalls b q tcs d nRun nSave).2.2.2 = true := by
  induction tcs with
  | nil => intro d nRun nSave; exact ⟨rfl, rfl⟩
  | cons tc rest ih =>
    intro d nRun nSave
    rw [runToolCalls]
    by_cases hf : tc.fname = "run_sql"
    · rw [if_pos hf]
      rcases harg : tc.arguments with e | osql
      · simp only [harg]
        exact ⟨rfl, rfl⟩
      · rcases osql with _ | s
        · simp only [harg]
          exact ih d nRun nSave
        · simp only [harg]
          by_cases hs : s = ""
          · rw [if_pos hs]
            exact ih d nRun nSave
          · rw [if_neg hs]
            rcases hrun : b.runSql nRun s with e | qr
            · simp only [hrun]
              exact ⟨rfl, rfl⟩
            · simp only [hrun]
              rcases hqe : qr.error with _ | msg
              · simp only [hqe]
                rcases hsave : b.saveUsage nSave with e | u
                · simp only [hsave]
                  refine ⟨?_, rfl⟩
                  simp [gatedTrace, hqe]
                · simp only [hsave]
                  obtain ⟨ih1, ih2⟩ := ih
                    (dictSet (dictSet d "sql" (Value.vStr s)) "results"
                      (Value.vQuery qr)) (nRun + 1) (nSave + 1)
                  refine ⟨?_, rfl⟩
                  simp [gatedTrace, hqe, ih1]
              · simp only [hqe]
                obtain ⟨ih1, ih2⟩ := ih
                  (dictSet (dictSet (dictSet d "sql" (Value.vStr s)) "results"
                    (Value.vQuery qr)) "error" (Value.vStr msg)) (nRun + 1) nSave
                refine ⟨?_, rfl⟩
                rcases hevs : (runToolCalls b q rest
                    (dictSet (dictSet (dictSet d "sql" (Value.vStr s)) "results"
                      (Value.vQuery qr)) "error" (Value.vStr msg))
                    (nRun + 1) nSave).2.2.2 with _ | ⟨ev, evs2⟩
                · simp [gatedTrace, hqe]
                · rw [hevs] at ih1 ih2
                  rcases ev with ⟨s', qr'⟩ | ⟨s', e'⟩ | ⟨q', s', succ⟩ | ⟨q', s', succ, e'⟩
                  · simp only [gatedTrace, hqe]
                    exact ih1
                  · simp only [gatedTrace, hqe]
                    exact ih1
                  · simp [headIsRan] at ih2
                  · simp [headIsRan] at ih2
    · rw [if_neg hf]
      exact ih d nRun nSave

lemma process_question_aux_gated (b : Behavior) (question : String) :
    gatedTrace (process_question_aux b question).2 = true := by
  rw [process_question_aux]
  split
  · rfl
  · split
    · rfl
    · split
      · rfl
      · simp only []
        split
        · exact (runToolCalls_gated b question _ _ 0 0).1
        · split
          · rfl
          · split
            · rfl
            · split
              · rfl
              · split
                · rfl
                · split
                  · split
                    · simp_all [gatedTrace]
                    · simp_all [gatedTrace]
                  · simp_all [gatedTrace]

/-- C3: in every run of `process_question`, under every collaborator
behavior, the event trace is save-gated: each SQL execution whose result
has no `error` key is immediately followed by exactly one `save_tool_usage`
attempt with `success=True` for that same SQL, and an execution whose
result carries `error` (or which raised) is followed by no memory write —
in both the tool-call branch and the free-text branch. -/
theorem memory_write_gating (b : Behavior) (question : String) :
    gatedTrace (process_question b question).2 = true := by
  have hevs := process_question_aux_gated b question
  rw [process_question]
  rcases haux : process_question_aux b question with ⟨res, evs⟩
  rw [haux] at hevs
  rcases res with e | d0 <;> simpa using hevs

/-- C2 counterexample: under `bSaveFail` the SQL executes successfully and
only the memory write raises, yet the user-visible response is NOT
unaffected — the orchestrator has no local handler around
`save_tool_usage`, so the exception reaches the outer handler and the
response becomes the error dict: `sql` and `results` null and `error` set,
the successful results lost. -/
theorem save_failure_counterexample :
    List.lookup "sql" (process_question bSaveFail "q").1 = some Value.vNull ∧
    List.lookup "results" (process_question bSaveFail "q").1 = some Value.vNull ∧
    List.lookup "error" (process_question bSaveFail "q").1 =
      some (Value.vStr "db down") ∧
    ¬ List.lookup "error" (process_question bSaveFail "q").1 = some Value.vNull :=
  ⟨rfl, rfl, rfl, by decide⟩

/-- C2 amended: when the memory write (`save_tool_usage`) raises `e` after
a successful SQL execution, `process_question` still returns (never
raises), but the returned dict is the uniform error dict — `sql`,
`results` and `explanation` null and `error` bound to `e` — rather than
the successful response. -/
theorem save_failure_error_response (b : Behavior) (question u : String)
    (ctx : RagContext) (resp : LlmResp) (s e : String) (qr : QueryResult)
    (hu : b.resolveUser = Except.ok u) (hc : b.getContext = Except.ok ctx)
    (hl : b.llmGenerate = Except.ok resp)
    (ht : resp.tool_calls = some [mkRunSqlCall s])
    (hs : s ≠ "") (hr : b.runSql 0 s = Except.ok qr) (hqe : qr.error = none)
    (hsave : b.saveUsage 0 = Except.error e) :
    (process_question b question).1 = errorDict question e := by
  simp only [process_question, process_question_aux, hu, hc, hl, ht,
    runToolCalls, mkRunSqlCall, if_true, if_neg hs, hr, hqe, hsave]

/-- Witness for `save_failure_error_response` at `bSaveFail`. -/
theorem save_failure_error_response_witness :
    (process_question bSaveFail "q").1 = errorDict "q" "db down" :=
  save_failure_error_response bSaveFail "q" "default" ⟨[], [], []⟩
    ⟨some "", some [mkRunSqlCall "SELECT 1"]⟩ "SELECT 1" "db down"
    ⟨["c"], [["1"]], 1, none⟩ rfl rfl rfl rfl (by decide) rfl rfl rfl

/-- C8 counterexample: in the free-text branch, a failed execution leaves
the top-level `error` null even though `sql` is non-null and the execution
result carried an error — the branch never assigns `result["error"]`,
unlike the tool-call branch. -/
theorem free_text_error_not_surfaced :
    List.lookup "sql" (process_question bFreeTextFail "q").1 =
      some (Value.vStr "SELECT 1;") ∧
    List.lookup "results" (process_question bFreeTextFail "q").1 =
      some (Value.vQuery ⟨[], [], 0, some "boom"⟩) ∧
    List.lookup "error" (process_question bFreeTextFail "q").1 =
      some Value.vNull ∧
    ¬ List.lookup "error" (process_question bFreeTextFail "q").1 =
        some (Value.vStr "boom") :=
  ⟨rfl, rfl, rfl, by decide⟩

/-- C8 amended: when a SQL execution result carries an `error` key, the
response surfaces the attempted `sql` together with a non-null top-level
`error` only in the tool-call branch; in the free-text branch the
attempted `sql` and the failing result are surfaced but the top-level
`error` stays null. -/
theorem execution_failure_surfacing (b : Behavior) (question u : String)
    (ctx : RagContext) (resp : LlmResp) (qr : QueryResult) (msg : String)
    (hu : b.resolveUser = Except.ok u) (hc : b.getContext = Except.ok ctx)
    (hl : b.llmGenerate = Except.ok resp) (hqe : qr.error = some msg) :
    (∀ s, resp.tool_calls = some [mkRunSqlCall s] → s ≠ "" →
      b.runSql 0 s = Except.ok qr →
      List.lookup "sql" (process_question b question).1 =
        some (Value.vStr s) ∧
      List.lookup "error" (process_question b question).1 =
        some (Value.vStr msg)) ∧
    (∀ c, resp.tool_calls = none → resp.content = some c → c ≠ "" →
      extract_sql_from_text c ≠ "" →
      b.runSql 0 (extract_sql_from_text c) = Except.ok qr →
      List.lookup "sql" (process_question b question).1 =
        some (Value.vStr (extract_sql_from_text c)) ∧
      List.lookup "results" (process_question b question).1 =
        some (Value.vQuery qr) ∧
      List.lookup "error" (process_question b question).1 = some Value.vNull) := by
  constructor
  · intro s ht hs hr
    simp only [process_question, process_question_aux, hu, hc, hl, ht,
      runToolCalls, mkRunSqlCall, if_true, if_neg hs, hr, hqe]
    refine ⟨?_, ?_⟩
    · rw [lookup_dictSet, if_neg (by decide), lookup_dictSet,
        if_neg (by decide), lookup_dictSet, if_pos rfl]
    · rw [lookup_dictSet, if_pos rfl]
  · intro c ht hcontent hcne hsqlne hr
    simp only [process_question, process_question_aux, hu, hc, hl, ht,
      hcontent, if_neg hcne, if_neg hsqlne, hr, hqe]
    refine ⟨?_, ?_, ?_⟩
    · rw [lookup_dictSet, if_neg (by decide), lookup_dictSet, if_pos rfl]
    · rw [lookup_dictSet, if_pos rfl]
    · rw [lookup_dictSet, if_neg (by decide), lookup_dictSet, if_neg (by decide)]
      rfl

/-- Witness for `execution_failure_surfacing`: the tool-call part at
`bToolFail` and the free-text part at `bFreeTextFail`. -/
theorem execution_failure_surfacing_witness :
    (List.lookup "sql" (process_question bToolFail "q").1 =
        some (Value.vStr "SELECT nope") ∧
      List.lookup "error" (process_question bToolFail "q").1 =
        some (Value.vStr "bad column")) ∧
    (List.lookup "sql" (process_question bFreeTextFail "q").1 =
        some (Value.vStr (extract_sql_from_text "SELECT 1;")) ∧
      List.lookup "results" (process_question bFreeTextFail "q").1 =
        some (Value.vQuery ⟨[], [], 0, some "boom"⟩) ∧
      List.lookup "error" (process_question bFreeTextFail "q").1 =
        some Value.vNull) :=
  ⟨(execution_failure_surfacing bToolFail "q" "default" ⟨[], [], []⟩
      ⟨some "", some [mkRunSqlCall "SELECT nope"]⟩ ⟨[], [], 0, some "bad column"⟩
      "bad column" rfl rfl rfl rfl).1 "SELECT nope" rfl (by decide) rfl,
   (execution_failure_surfacing bFreeTextFail "q" "default" ⟨[], [], []⟩
      ⟨some "SELECT 1;", none⟩ ⟨[], [], 0, some "boom"⟩
      "boom" rfl rfl rfl rfl).2 "SELECT 1;" rfl rfl (by decide) (by decide) rfl⟩

/-- C10 counterexample: with two `run_sql` tool calls where the first
execution fails and the second succeeds, the final dict's `sql` and
`results` come from the last call but `error` still holds the FIRST
call's message — `error` is only assigned on failure and never reset, so
it does not reflect only the last tool call. -/
theorem multiple_tool_calls_error_sticky :
    List.lookup "sql" (process_question bTwoCalls "q").1 =
      some (Value.vStr "SQL2") ∧
    List.lookup "results" (process_question bTwoCalls "q").1 =
      some (Value.vQuery ⟨["c"], [["2"]], 1, none⟩) ∧
    List.lookup "error" (process_question bTwoCalls "q").1 =
      some (Value.vStr "e1") ∧
    ¬ List.lookup "error" (process_question bTwoCalls "q").1 = some Value.vNull :=
  ⟨rfl, rfl, rfl, by decide⟩

lemma ranSqls_traceOfPairs (q : String) (pairs : List (String × QueryResult)) :
    ranSqls (traceOfPairs q pairs) = pairs.map (fun p => p.1) := by
  induction pairs with
  | nil => rfl
  | cons p rest ih =>
    obtain ⟨s, qr⟩ := p
    rcases hqe : qr.error with _ | msg <;>
      simp [traceOfPairs, hqe, ranSqls, ih]

lemma savedSqls_traceOfPairs (q : String) (pairs : List (String × QueryResult)) :
    savedSqls (traceOfPairs q pairs) =
      (pairs.filter (fun p => p.2.error.isNone)).map (fun p => p.1) := by
  induction pairs with
  | nil => rfl
  | cons p rest ih =>
    obtain ⟨s, qr⟩ := p
    rcases hqe : qr.error with _ | msg <;>
      simp [traceOfPairs, hqe, savedSqls, ih, List.filter_cons]

lemma applyPairs_lookup_last (pairs : List (String × QueryResult)) :
    ∀ (d : RespDict) (p : String × QueryResult), pairs.getLast? = some p →
      List.lookup "sql" (applyPairs d pairs) = some (Value.vStr p.1) ∧
      List.lookup "results" (applyPairs d pairs) = some (Value.vQuery p.2) := by
  induction pairs with
  | nil => intro d p hp; simp at hp
  | cons hd rest ih =>
    intro d p hp
    obtain ⟨s, qr⟩ := hd
    cases rest with
    | nil =>
      simp only [List.getLast?_singleton, Option.some.injEq] at hp
      subst hp
      rcases hqe : qr.error with _ | msg <;>
        simp only [applyPairs, hqe] <;>
        constructor <;>
        simp [lookup_dictSet]
    | cons hd2 rest2 =>
      have hp2 : (hd2 :: rest2).getLast? = some p := by
        rw [List.getLast?_cons_cons] at hp
        exact hp
      rcases hqe : qr.error with _ | msg <;>
        simp only [applyPairs, hqe] <;>
        exact ih _ p hp2

lemma applyPairs_lookup_error (pairs : List (String × QueryResult)) :
    ∀ (d : RespDict),
      List.lookup "error" (applyPairs d pairs) =
        (match lastFailure pairs with
         | none => List.lookup "error" d
         | some m => some (Value.vStr m)) := by
  induction pairs with
  | nil => intro d; rfl
  | cons hd rest ih =>
    intro d
    obtain ⟨s, qr⟩ := hd
    rcases hqe : qr.error with _ | msg
    · simp only [applyPairs, hqe, lastFailure]
      rw [ih]
      rcases hlf : lastFailure rest with _ | m
      · simp only [hqe]
        rw [lookup_dictSet, if_neg (by decide), lookup_dictSet, if_neg (by decide)]
      · rfl
    · simp only [applyPairs, hqe, lastFailure]
      rw [ih]
      rcases hlf : lastFailure rest with _ | m
      · simp only [hqe]
        rw [lookup_dictSet, if_pos rfl]
      · rfl

lemma runToolCalls_pairs (b : Behavior) (q : String)
    (pairs : List (String × QueryResult)) :
    ∀ (d : RespDict) (k m : Nat),
      (∀ p ∈ pairs, p.1 ≠ "") →
      (∀ i (h : i < pairs.length),
        b.runSql (k + i) (pairs.get ⟨i, h⟩).1 = Except.ok (pairs.get ⟨i, h⟩).2) →
      (∀ n, b.saveUsage n = Except.ok ()) →
      runToolCalls b q (pairs.map (fun p => mkRunSqlCall p.1)) d k m =
        (Except.ok (applyPairs d pairs), k + pairs.length,
          m + (pairs.filter (fun p => p.2.error.isNone)).length,
          traceOfPairs q pairs) := by
  induction pairs with
  | nil =>
    intro d k m _ _ _
    simp [runToolCalls, applyPairs, traceOfPairs]
  | cons hd rest ih =>
    intro d k m hne hrun hsave
    obtain ⟨s, qr⟩ := hd
    have hs : s ≠ "" := hne (s, qr) (by simp)
    have h0 : b.runSql k s = Except.ok qr := by
      have h := hrun 0 (by simp)
      simpa using h
    have hrun2 : ∀ i (h : i < rest.length),
        b.runSql (k + 1 + i) (rest.get ⟨i, h⟩).1 =
          Except.ok (rest.get ⟨i, h⟩).2 := by
      intro i h
      have h2 : i + 1 < ((s, qr) :: rest).length := by
        simp only [List.length_cons]
        omega
      have h3 := hrun (i + 1) h2
      have harith : k + (i + 1) = k + 1 + i := by omega
      rw [harith] at h3
      simpa using h3
    have hne2 : ∀ p ∈ rest, p.1 ≠ "" :=
      fun p hp => hne p (List.mem_cons_of_mem _ hp)
    simp only [List.map_cons, runToolCalls,
      show (mkRunSqlCall s).fname = "run_sql" from rfl,
      show (mkRunSqlCall s).arguments = Except.ok (some s) from rfl,
      if_true, if_neg hs, h0]
    rcases hqe : qr.error with _ | msg
    · simp only [hqe, hsave m]
      rw [ih _ (k + 1) (m + 1) hne2 hrun2 hsave]
      simp only [applyPairs, hqe, traceOfPairs, List.filter_cons,
        Option.isNone_none, Prod.mk.injEq, List.length_cons]
      refine ⟨trivial, by omega, ?_, trivial⟩
      simp [hqe]
      omega
    · simp only [hqe]
      rw [ih _ (k + 1) m hne2 hrun2 hsave]
      simp only [applyPairs, hqe, traceOfPairs, List.filter_cons,
        Prod.mk.injEq, List.length_cons]
      refine ⟨trivial, by omega, ?_, trivial⟩
      simp [hqe]

/-- C10 amended: when the LLM response carries multiple `run_sql` tool
calls, each with a non-empty `sql` argument, and every execution returns
normally and every memory write succeeds, `process_question` executes
every call in order; `sql` and `results` reflect the last call (earlier
values overwritten); a memory write is attempted exactly for each call
whose execution result has no `error` key; and `error` holds the message
of the LAST FAILED execution — it is assigned only on failure and never
reset, so a later success does not clear it (null only if no call
failed). -/
theorem process_question_tool_loop (b : Behavior) (question u : String)
    (ctx : RagContext) (resp : LlmResp)
    (pairs : List (String × QueryResult))
    (hu : b.resolveUser = Except.ok u) (hc : b.getContext = Except.ok ctx)
    (hl : b.llmGenerate = Except.ok resp)
    (ht : resp.tool_calls = some (pairs.map (fun p => mkRunSqlCall p.1)))
    (hne : ∀ p ∈ pairs, p.1 ≠ "")
    (hrun : ∀ i (h : i < pairs.length),
      b.runSql i (pairs.get ⟨i, h⟩).1 = Except.ok (pairs.get ⟨i, h⟩).2)
    (hsave : ∀ n, b.saveUsage n = Except.ok ()) :
    ranSqls (process_question b question).2 = pairs.map (fun p => p.1) ∧
    savedSqls (process_question b question).2 =
      (pairs.filter (fun p => p.2.error.isNone)).map (fun p => p.1) ∧
    (∀ p, pairs.getLast? = some p →
      List.lookup "sql" (process_question b question).1 =
        some (Value.vStr p.1) ∧
      List.lookup "results" (process_question b question).1 =
        some (Value.vQuery p.2)) ∧
    List.lookup "error" (process_question b question).1 =
      (match lastFailure pairs with
       | none => some Value.vNull
       | some m => some (Value.vStr m)) := by
  have hrun0 : ∀ i (h : i < pairs.length),
      b.runSql (0 + i) (pairs.get ⟨i, h⟩).1 = Except.ok (pairs.get ⟨i, h⟩).2 := by
    intro i h
    rw [Nat.zero_add]
    exact hrun i h
  have hloop := runToolCalls_pairs b question pairs
    [("question", Value.vStr question), ("sql", Value.vNull),
     ("results", Value.vNull),
     ("explanation", Value.vStr (resp.content.getD "")),
     ("prompt", Value.vStr (build_system_prompt ctx)), ("error", Value.vNull)]
    0 0 hne hrun0 hsave
  have hout : process_question b question =
      (applyPairs
        [("question", Value.vStr question), ("sql", Value.vNull),
         ("results", Value.vNull),
         ("explanation", Value.vStr (resp.content.getD "")),
         ("prompt", Value.vStr (build_system_prompt ctx)), ("error", Value.vNull)]
        pairs,
       traceOfPairs question pairs) := by
    simp only [process_question, process_question_aux, hu, hc, hl, ht, hloop]
  rw [hout]
  refine ⟨ranSqls_traceOfPairs question pairs,
    savedSqls_traceOfPairs question pairs, ?_, ?_⟩
  · intro p hp
    exact applyPairs_lookup_last pairs _ p hp
  · rw [applyPairs_lookup_error pairs]
    rcases lastFailure pairs with _ | m
    · rfl
    · rfl

/-- Witness for `process_question_tool_loop` at `bTwoCalls`. -/
theorem process_question_tool_loop_witness :
    ranSqls (process_question bTwoCalls "q").2 = ["SQL1", "SQL2"] ∧
    savedSqls (process_question bTwoCalls "q").2 = ["SQL2"] ∧
    List.lookup "sql" (process_question bTwoCalls "q").1 =
      some (Value.vStr "SQL2") ∧
    List.lookup "error" (process_question bTwoCalls "q").1 =
      some (Value.vStr "e1") := by
  have h := process_question_tool_loop bTwoCalls "q" "default" ⟨[], [], []⟩
    ⟨some "", some [mkRunSqlCall "SQL1", mkRunSqlCall "SQL2"]⟩
    [("SQL1", ⟨[], [], 0, some "e1"⟩), ("SQL2", ⟨["c"], [["2"]], 1, none⟩)]
    rfl rfl rfl rfl (by decide)
    (by
      intro i h
      simp only [List.length_cons, List.length_nil] at h
      interval_cases i <;> rfl)
    (fun n => rfl)
  exact ⟨h.1, h.2.1, (h.2.2.1 ("SQL2", ⟨["c"], [["2"]], 1, none⟩) rfl).1, h.2.2.2⟩
